import Mathlib

/-!
Shallow embedding of the OpenClaw Deck client store
(src/src/lib/gateway-config.ts, the zustand store section).

The store keeps a record from agent id to `AgentSession`; every claim of the
specification concerns how `handleGatewayEvent`, `sendMessage` and the history
bootstrap mutate that record.  JS objects are modelled as association lists
(`Sessions`), preserving the JS object-spread update semantics: an existing key
is overwritten in place, a fresh key is appended at the end.  `Date.now()` and
`makeId()` are nondeterministic in the source and are passed in as explicit
`now` / fresh-id parameters.  Optional/"possibly undefined" payload fields are
`Option` values, and JS truthiness tests on strings are modelled explicitly
(`truthyOptStr`).
-/

/-- Session status, the `AgentStatus` union of the source
(idle / thinking / streaming / tool_use / error / disconnected). -/
inductive AgentStatus where
  | idle
  | thinking
  | streaming
  | tool_use
  | error
  | disconnected
deriving DecidableEq, Repr

/-- Payload of a compaction-role message: `{ beforeTokens, afterTokens, droppedMessages }`. -/
structure CompactionInfo where
  beforeTokens : Nat
  afterTokens : Nat
  droppedMessages : Nat
deriving DecidableEq, Repr

/-- Message roles of `ChatMessage` in the source. -/
inductive Role where
  | user
  | assistant
  | announcement
  | compaction
deriving DecidableEq, Repr

/-- One chat-timeline entry (`ChatMessage` of the source).  The TS fields
`streaming?`, `runId?`, `announcement?`, `compaction?` are optional; an absent
boolean is falsy in every test the source performs, so absent `streaming` and
`announcement` are modelled as `false`. -/
structure ChatMessage where
  id : String
  role : Role
  text : String
  timestamp : Nat
  streaming : Bool
  runId : Option String
  announcement : Bool
  compaction : Option CompactionInfo
deriving DecidableEq, Repr

/-- Usage snapshot pushed by the gateway.  Only `totalTokens` is read by the
store (`tokenCount: usage.totalTokens`). -/
structure SessionUsage where
  totalTokens : Nat
deriving DecidableEq, Repr

/-- Per-agent session state (`AgentSession` of the source). -/
structure AgentSession where
  agentId : String
  status : AgentStatus
  messages : List ChatMessage
  activeRunId : Option String
  tokenCount : Nat
  connected : Bool
  usage : Option SessionUsage
deriving DecidableEq, Repr

/-- The `sessions` record of the store, as an association list from agent id
to session, in JS object insertion order. -/
abbrev Sessions : Type := List (String × AgentSession)

/-- Key lookup, the JS `state.sessions[agentId]` read. -/
def lookupS : Sessions → String → Option AgentSession
  | [], _ => none
  | (k, v) :: rest, a => if k = a then some v else lookupS rest a

/-- The JS update `{ ...state.sessions, [agentId]: v }`: overwrite in place when
the key exists, append at the end otherwise. -/
def upsertS : Sessions → String → AgentSession → Sessions
  | [], a, v => [(a, v)]
  | (k, w) :: rest, a, v =>
      if k = a then (a, v) :: rest else (k, w) :: upsertS rest a v

/-- Model of `createSession` of the source. -/
def createSession (agentId : String) : AgentSession :=
  { agentId := agentId
    status := .idle
    messages := []
    activeRunId := none
    tokenCount := 0
    connected := false
    usage := none }

/-- Note that `setAgentStatus` performs `{ ...state.sessions[agentId], status }` with no
existence guard.  When the key is untracked the JS spread of `undefined`
produces an object holding only `status`; the absent remaining fields are
modelled here by this zero/empty record. -/
def undefinedSpreadSession : AgentSession :=
  { agentId := ""
    status := .idle
    messages := []
    activeRunId := none
    tokenCount := 0
    connected := false
    usage := none }

/-- Model of `setAgentStatus` of the source: unguarded spread-update of the session
status (see `undefinedSpreadSession` for the untracked-key case). -/
def setAgentStatus (sessions : Sessions) (agentId : String) (status : AgentStatus) : Sessions :=
  upsertS sessions agentId
    { (lookupS sessions agentId).getD undefinedSpreadSession with status := status }

/-- Model of `appendMessageChunk` of the source: append `chunk` to every message whose
`runId` matches and whose `streaming` flag is truthy, and add `chunk.length` to
the approximate token count.  The `runId` argument is the raw event field and
may be absent (`payload.runId as string` can be `undefined`); `===` on two such
values is `Option` equality. -/
def appendMessageChunk (sessions : Sessions) (agentId : String) (runId : Option String)
    (chunk : String) : Sessions :=
  match lookupS sessions agentId with
  | none => sessions
  | some session =>
      let messages := session.messages.map fun msg =>
        if msg.runId == runId && msg.streaming then
          { msg with text := msg.text ++ chunk }
        else msg
      upsertS sessions agentId
        { session with
            messages := messages
            tokenCount := session.tokenCount + chunk.length }

/-- Model of `finalizeMessage` of the source: seal every message whose `runId` matches
(`streaming := false`), clear `activeRunId`, return status to `idle`. -/
def finalizeMessage (sessions : Sessions) (agentId : String) (runId : Option String) : Sessions :=
  match lookupS sessions agentId with
  | none => sessions
  | some session =>
      let messages := session.messages.map fun msg =>
        if msg.runId == runId then { msg with streaming := false } else msg
      upsertS sessions agentId
        { session with
            messages := messages
            activeRunId := none
            status := .idle }

/-- JS truthiness of a possibly-undefined string: `undefined` and the empty
string are falsy. -/
def truthyOptStr : Option String → Bool
  | some s => s != ""
  | none => false

/-- Concatenation of a list of strings in order, the JS `.join("")`. -/
def concatList : List String → String
  | [] => ""
  | s :: rest => s ++ concatList rest

/-- JS `text.split(sep)` for a single-character separator, on the character
list of the string: no collapsing of empty pieces, and the empty input yields
one empty piece. -/
def splitChar (sep : Char) : List Char → List (List Char)
  | [] => [[]]
  | c :: rest =>
      let r := splitChar sep rest
      if c = sep then [] :: r
      else
        match r with
        | [] => [[c]]
        | h :: t => (c :: h) :: t

/-- Model of the `sessionKey.split(":")` call of the source, returning the pieces as strings. -/
def splitKey (s : String) : List String :=
  (splitChar ':' s.data).map List.asString

/-- Column-id extraction used by every event case:
`const parts = sessionKey?.split(":") ?? []; parts[2] ?? parts[1] ?? "main"`. -/
def resolveAgentId (sessionKey : Option String) : String :=
  let parts : List String :=
    match sessionKey with
    | some key => splitKey key
    | none => []
  ((parts.get? 2).orElse fun _ => parts.get? 1).getD "main"

/-- Models the JS test `!text.trim()`: true exactly when the string trims to
empty, i.e. every character is whitespace. -/
def isBlank (s : String) : Bool :=
  s.data.all Char.isWhitespace

/-- Whether the character list `pat` occurs as a prefix of `l`. -/
def startsWithL : List Char → List Char → Bool
  | [], _ => true
  | _ :: _, [] => false
  | p :: ps, c :: cs => p == c && startsWithL ps cs

/-- Whether the character list `pat` occurs as a contiguous sublist of `l`. -/
def occursIn (pat : List Char) : List Char → Bool
  | [] => startsWithL pat []
  | c :: cs => startsWithL pat (c :: cs) || occursIn pat cs

/-- Case-insensitive substring test. -/
def containsCI (s pat : String) : Bool :=
  occursIn (pat.data.map Char.toLower) (s.data.map Char.toLower)

/-- The chat-event sentinel test `/HEARTBEAT_OK|heartbeat/i.test(text)`: since
any match of the first alternative also contains the second, the regex holds
exactly when the text contains "heartbeat" case-insensitively. -/
def heartbeatSentinel (text : String) : Bool :=
  containsCI text "heartbeat"

/-- The history-parse sentinel test `/HEARTBEAT_OK|heartbeat|NO_REPLY/i.test(text)`. -/
def historySentinel (text : String) : Bool :=
  containsCI text "heartbeat" || containsCI text "no_reply"

/-- One entry of a typed content-part array `{ type?, text? }`. -/
structure ContentPart where
  type : Option String
  text : Option String
deriving DecidableEq, Repr

/-- The content field of a pushed or historical message after the source
coalesces its aliases (`message.content ?? message.text ?? message.body`,
resp. `msg.content`): an array of typed parts, a plain string, or absent. -/
inductive ChatContent where
  | parts (ps : List ContentPart)
  | str (s : String)
  | absent
deriving DecidableEq, Repr

/-- Text extraction shared by the chat case and the history parser: keep the
parts whose `type` is "text" with truthy `text`, join them; pass a plain
string through; anything else yields the empty string. -/
def extractChatText : ChatContent → String
  | .parts ps =>
      concatList (ps.filterMap fun p =>
        if p.type == some "text" && truthyOptStr p.text then p.text else none)
  | .str s => s
  | .absent => ""

/-- The message object of a chat event after coalescing
`payload.message ?? payload.data ?? payload.content`. -/
structure ChatPayloadMsg where
  role : Option String
  content : ChatContent
deriving DecidableEq, Repr

/-- The `data` object of an agent event (`{ delta?, phase?, ... }`). -/
structure AgentStreamData where
  delta : Option String
  phase : Option String
deriving DecidableEq, Repr

/-- Inbound gateway events, by the `event` discriminator of the source switch.
Payload fields are the ones the handler reads; each may be absent. -/
inductive GatewayEvent where
  | agent (runId : Option String) (stream : Option String)
      (data : Option AgentStreamData) (sessionKey : Option String)
  | presence (agents : Option (List (String × Bool)))
  | tick
  | compaction (sessionKey : Option String)
      (beforeTokens afterTokens droppedMessages : Option Nat)
  | sessionsUsage (sessionKey : Option String) (usage : Option SessionUsage)
  | chat (state : Option String) (runId : Option String)
      (sessionKey : Option String) (message : Option ChatPayloadMsg)
  | other (name : String)
deriving DecidableEq, Repr

/-- Case "agent" of `handleGatewayEvent`. -/
def handleAgentCase (now : Nat) (freshId : String) (runId : Option String)
    (stream : Option String) (data : Option AgentStreamData)
    (sessionKey : Option String) (sessions : Sessions) : Sessions :=
  let agentId := resolveAgentId sessionKey
  if stream == some "assistant" && truthyOptStr (data.bind AgentStreamData.delta) then
    let sessions1 :=
      appendMessageChunk sessions agentId runId ((data.bind AgentStreamData.delta).getD "")
    setAgentStatus sessions1 agentId .streaming
  else if stream == some "lifecycle" then
    let phase := data.bind AgentStreamData.phase
    if phase == some "start" then
      let session? := lookupS sessions agentId
      let hasPlaceholder :=
        match session? with
        | some s => s.messages.any fun msg => msg.runId == runId
        | none => false
      let sessions1 :=
        if hasPlaceholder then sessions
        else
          match session? with
          | some session =>
              let isAnnouncement := session.status == .idle
              let placeholderMsg : ChatMessage :=
                { id := freshId
                  role := if isAnnouncement then .announcement else .assistant
                  text := ""
                  timestamp := now
                  streaming := true
                  runId := runId
                  announcement := isAnnouncement
                  compaction := none }
              upsertS sessions agentId
                { session with
                    messages := session.messages ++ [placeholderMsg]
                    activeRunId := runId }
          | none => sessions
      setAgentStatus sessions1 agentId .thinking
    else if phase == some "end" then
      finalizeMessage sessions agentId runId
    else sessions
  else if stream == some "tool_use" then
    setAgentStatus sessions agentId .tool_use
  else sessions

/-- Case "presence" of `handleGatewayEvent`: for every entry of the online
map, update `connected` of the tracked session (untracked ids are skipped) and
force `disconnected` when the agent went offline. -/
def handlePresenceCase (agents : Option (List (String × Bool)))
    (sessions : Sessions) : Sessions :=
  match agents with
  | none => sessions
  | some entries =>
      entries.foldl
        (fun acc entry =>
          match lookupS acc entry.1 with
          | none => acc
          | some s =>
              upsertS acc entry.1
                { s with
                    connected := entry.2
                    status := if entry.2 then s.status else .disconnected })
        sessions

/-- Case "compaction" of `handleGatewayEvent`: append a compaction-role marker
message to the tracked target session. -/
def handleCompactionCase (now : Nat) (freshId : String) (sessionKey : Option String)
    (beforeTokens afterTokens droppedMessages : Option Nat)
    (sessions : Sessions) : Sessions :=
  let agentId := resolveAgentId sessionKey
  let compactionMsg : ChatMessage :=
    { id := freshId
      role := .compaction
      text := ""
      timestamp := now
      streaming := false
      runId := none
      announcement := false
      compaction := some
        { beforeTokens := beforeTokens.getD 0
          afterTokens := afterTokens.getD 0
          droppedMessages := droppedMessages.getD 0 } }
  match lookupS sessions agentId with
  | none => sessions
  | some session =>
      upsertS sessions agentId
        { session with messages := session.messages ++ [compactionMsg] }

/-- Case "sessions.usage" of `handleGatewayEvent`. -/
def handleUsageCase (sessionKey : Option String) (usage : Option SessionUsage)
    (sessions : Sessions) : Sessions :=
  let agentId := resolveAgentId sessionKey
  match usage with
  | none => sessions
  | some u =>
      match lookupS sessions agentId with
      | none => sessions
      | some session =>
          upsertS sessions agentId
            { session with usage := some u, tokenCount := u.totalTokens }

/-- The `dedupRecent` check of the chat case: the immediately preceding
message has identical text and arrived within the 5000 ms recency window. -/
def dedupRecent (messages : List ChatMessage) (text : String) (now : Nat) : Bool :=
  match messages.getLast? with
  | some lastMsg => lastMsg.text == text && now - lastMsg.timestamp < 5000
  | none => false

/-- Case "chat" of `handleGatewayEvent`: only final-state pushes survive, text
is extracted from the content parts, the whitelist filter drops blank text,
heartbeat sentinels and tool/function roles, a runId already tracked in the
session is skipped, an identical last message within 5000 ms is skipped, and
the surviving turn is appended as an announcement only for the assistant and
system roles. -/
def handleChatCase (now : Nat) (freshId : String) (state : Option String)
    (runId : Option String) (sessionKey : Option String)
    (message : Option ChatPayloadMsg) (sessions : Sessions) : Sessions :=
  let agentId := resolveAgentId sessionKey
  match lookupS sessions agentId with
  | none => sessions
  | some session =>
      if state != some "final" then sessions
      else
        match message with
        | none => sessions
        | some msg =>
            let role := msg.role
            let text := extractChatText msg.content
            if isBlank text then sessions
            else if heartbeatSentinel text then sessions
            else if role == some "tool" || role == some "function" then sessions
            else if truthyOptStr runId
                && session.messages.any (fun m => m.runId == runId) then sessions
            else if dedupRecent session.messages text now then sessions
              else if role == some "assistant" || role == some "system" then
                let announcementMsg : ChatMessage :=
                  { id := freshId
                    role := .announcement
                    text := text
                    timestamp := now
                    streaming := false
                    runId := runId
                    announcement := true
                    compaction := none }
                upsertS sessions agentId
                  { session with messages := session.messages ++ [announcementMsg] }
              else sessions

/-- Model of `handleGatewayEvent` of the source: dispatch on the `event` discriminator;
"tick" and unrecognized kinds leave the state untouched. -/
def handleGatewayEvent (now : Nat) (freshId : String) (ev : GatewayEvent)
    (sessions : Sessions) : Sessions :=
  match ev with
  | .agent runId stream data sessionKey =>
      handleAgentCase now freshId runId stream data sessionKey sessions
  | .presence agents => handlePresenceCase agents sessions
  | .tick => sessions
  | .compaction sessionKey b a d =>
      handleCompactionCase now freshId sessionKey b a d sessions
  | .sessionsUsage sessionKey usage => handleUsageCase sessionKey usage sessions
  | .chat state runId sessionKey message =>
      handleChatCase now freshId state runId sessionKey message sessions
  | .other _ => sessions

/-- Left fold of `handleGatewayEvent` over a list of inbound events, the
strictly-in-arrival-order processing of the single connection. -/
def processAll (now : Nat) (freshId : String) (events : List GatewayEvent)
    (sessions : Sessions) : Sessions :=
  events.foldl (fun acc ev => handleGatewayEvent now freshId ev acc) sessions

/-- Model of `sendMessage` of the source, with the asynchronous `runAgent` outcome made
explicit: `clientConnected` is the `client?.connected` truthiness (absent
client gives `none`), and `runResult` is `some runId` when the gateway call
resolved and `none` when it rejected (the catch branch).  The two `Date.now()`
reads of one call are modelled as a single instant. -/
def sendMessage (clientConnected : Option Bool) (sessions : Sessions)
    (agentId : String) (text : String) (runResult : Option String)
    (now : Nat) (userMsgId placeholderId : String) : Sessions :=
  match clientConnected with
  | some true =>
      match lookupS sessions agentId with
      | none => sessions
      | some session =>
          let userMsg : ChatMessage :=
            { id := userMsgId
              role := .user
              text := text
              timestamp := now
              streaming := false
              runId := none
              announcement := false
              compaction := none }
          let sessions1 :=
            upsertS sessions agentId
              { session with
                  messages := session.messages ++ [userMsg]
                  status := .thinking }
          match runResult with
          | some runId =>
              let assistantMsg : ChatMessage :=
                { id := placeholderId
                  role := .assistant
                  text := ""
                  timestamp := now
                  streaming := true
                  runId := some runId
                  announcement := false
                  compaction := none }
              let s1 := (lookupS sessions1 agentId).getD undefinedSpreadSession
              upsertS sessions1 agentId
                { s1 with
                    messages := s1.messages ++ [assistantMsg]
                    activeRunId := some runId
                    status := .streaming }
          | none =>
              let s1 := (lookupS sessions1 agentId).getD undefinedSpreadSession
              upsertS sessions1 agentId { s1 with status := .error }
  | _ => sessions

/-- One raw entry of a `chat.history` response. -/
structure RawHistoryMessage where
  role : Option String
  content : ChatContent
  timestamp : Option Nat
  openclawKind : Option String
deriving DecidableEq, Repr

/-- Model of `parseHistoryMessages` of the source: drop entries without role, with
tool/toolresult/function roles or compaction markers, extract the text, drop
blank and heartbeat/no-reply text, and map roles (system becomes
announcement), skipping every other role.  Fresh ids are drawn per input
index. -/
def parseHistoryMessages (freshId : Nat → String) (now : Nat)
    (raw : List RawHistoryMessage) : List ChatMessage :=
  raw.enum.filterMap fun p =>
    let msg := p.2
    match msg.role with
    | none => none
    | some role =>
        if role = "tool" || role = "toolresult" || role = "function" then none
        else if msg.openclawKind == some "compaction" then none
        else
          let text := extractChatText msg.content
          if isBlank text then none
          else if historySentinel text then none
          else
            let chatRole? : Option Role :=
              if role = "user" then some .user
              else if role = "assistant" then some .assistant
              else if role = "system" then some .announcement
              else none
            match chatRole? with
            | none => none
            | some chatRole =>
                some
                  { id := freshId p.1
                    role := chatRole
                    text := text
                    timestamp := msg.timestamp.getD now
                    streaming := false
                    runId := none
                    announcement := chatRole == .announcement
                    compaction := none }

/-- The history-fetch completion callback of `initialize` (the `.then` branch
of `client.chatHistory`): parse the transcript, ignore an empty parse result,
and commit only when the target session still has an empty message list. -/
def commitHistory (freshId : Nat → String) (now : Nat) (sessions : Sessions)
    (agentId : String) (raw : List RawHistoryMessage) : Sessions :=
  let historyMsgs := parseHistoryMessages freshId now raw
  if historyMsgs.length = 0 then sessions
  else
    match lookupS sessions agentId with
    | none => sessions
    | some session =>
        if session.messages.length > 0 then sessions
        else upsertS sessions agentId { session with messages := historyMsgs }

/-- A stream-delta event (`event: "agent"`, sub-stream "assistant") with the
given run id and chunk. -/
def deltaEvent (runId : String) (sessionKey : Option String) (chunk : String) : GatewayEvent :=
  .agent (some runId) (some "assistant") (some { delta := some chunk, phase := none }) sessionKey

/-- A lifecycle-end event for the given run id. -/
def endEvent (runId : String) (sessionKey : Option String) : GatewayEvent :=
  .agent (some runId) (some "lifecycle") (some { delta := none, phase := some "end" }) sessionKey

/-! ### Association-list lemmas for the sessions record -/

theorem lookupS_upsertS_self (s : Sessions) (a : String) (v : AgentSession) :
    lookupS (upsertS s a v) a = some v := by
  induction s with
  | nil => simp [upsertS, lookupS]
  | cons hd t ih =>
      obtain ⟨k, w⟩ := hd
      by_cases hk : k = a
      · simp [upsertS, hk, lookupS]
      · simp [upsertS, hk, lookupS, ih]

theorem lookupS_upsertS_ne (s : Sessions) (a b : String) (v : AgentSession)
    (h : b ≠ a) : lookupS (upsertS s a v) b = lookupS s b := by
  have hab : a ≠ b := fun hh => h hh.symm
  induction s with
  | nil => simp [upsertS, lookupS, hab]
  | cons hd t ih =>
      obtain ⟨k, w⟩ := hd
      by_cases hk : k = a
      · subst hk
        simp [upsertS, lookupS, hab]
      · simp only [upsertS, if_neg hk, lookupS]
        by_cases hkb : k = b
        · simp [hkb]
        · simp [hkb, ih]

theorem upsertS_upsertS (s : Sessions) (a : String) (v w : AgentSession) :
    upsertS (upsertS s a v) a w = upsertS s a w := by
  induction s with
  | nil => simp [upsertS]
  | cons hd t ih =>
      obtain ⟨k, u⟩ := hd
      by_cases hk : k = a
      · simp [upsertS, hk]
      · simp [upsertS, hk, ih]

theorem setAgentStatus_upsertS (s : Sessions) (a : String) (v : AgentSession)
    (st : AgentStatus) :
    setAgentStatus (upsertS s a v) a st = upsertS s a { v with status := st } := by
  simp [setAgentStatus, lookupS_upsertS_self, upsertS_upsertS]

/-! ### Step lemmas for single events -/

theorem handle_delta_eq (now : Nat) (fid : String) (r c : String) (key : Option String)
    (sessions : Sessions) (hc : c ≠ "") :
    handleGatewayEvent now fid (deltaEvent r key c) sessions =
      setAgentStatus (appendMessageChunk sessions (resolveAgentId key) (some r) c)
        (resolveAgentId key) .streaming := by
  have ht : truthyOptStr (some c) = true := by simp [truthyOptStr, hc]
  simp [handleGatewayEvent, deltaEvent, handleAgentCase, ht]

theorem handle_delta_empty (now : Nat) (fid : String) (r : String) (key : Option String)
    (sessions : Sessions) :
    handleGatewayEvent now fid (deltaEvent r key "") sessions = sessions := by
  simp [handleGatewayEvent, deltaEvent, handleAgentCase, truthyOptStr]

theorem handle_delta_tracked (now : Nat) (fid : String) (r c : String) (key : Option String)
    (sessions : Sessions) (agentId : String) (session : AgentSession)
    (hkey : resolveAgentId key = agentId) (hc : c ≠ "")
    (hs : lookupS sessions agentId = some session) :
    handleGatewayEvent now fid (deltaEvent r key c) sessions =
      upsertS sessions agentId
        { session with
            messages := session.messages.map fun msg =>
              if msg.runId == some r && msg.streaming then
                { msg with text := msg.text ++ c }
              else msg
            tokenCount := session.tokenCount + c.length
            status := .streaming } := by
  rw [handle_delta_eq now fid r c key sessions hc, hkey]
  simp [appendMessageChunk, hs, setAgentStatus_upsertS]

theorem handle_end_eq (now : Nat) (fid : String) (r : String) (key : Option String)
    (sessions : Sessions) :
    handleGatewayEvent now fid (endEvent r key) sessions =
      finalizeMessage sessions (resolveAgentId key) (some r) := by
  simp [handleGatewayEvent, endEvent, handleAgentCase, truthyOptStr]

theorem handle_presence_single (now : Nat) (fid : String) (sessions : Sessions)
    (agentId : String) (online : Bool) (session : AgentSession)
    (hs : lookupS sessions agentId = some session) :
    handleGatewayEvent now fid (.presence (some [(agentId, online)])) sessions =
      upsertS sessions agentId
        { session with
            connected := online
            status := if online then session.status else .disconnected } := by
  simp [handleGatewayEvent, handlePresenceCase, hs]

theorem processAll_nil (now : Nat) (fid : String) (sessions : Sessions) :
    processAll now fid [] sessions = sessions := rfl

theorem processAll_cons (now : Nat) (fid : String) (e : GatewayEvent)
    (es : List GatewayEvent) (sessions : Sessions) :
    processAll now fid (e :: es) sessions =
      processAll now fid es (handleGatewayEvent now fid e sessions) := rfl

/-! ### Claim C1 — stream-delta with no matching streaming placeholder -/

/-- Demo state for C1: one tracked idle session with no messages. -/
def c1Sessions : Sessions := [("a1", createSession "a1")]

/-- C1 counterexample: a stream-delta whose runId matches no streaming message
does NOT leave the session state entirely unchanged: the source still adds the
chunk length to `tokenCount` (`appendMessageChunk` updates it outside the
per-message match) and then sets the status to `streaming`.  Here the delta
"hi" moves the tracked session from `(idle, 0)` to `(streaming, 2)`. -/
theorem unmatched_delta_counterexample :
    lookupS c1Sessions "a1" = some (createSession "a1") ∧
    lookupS (handleGatewayEvent 0 "f1" (deltaEvent "r1" (some "agent:main:a1") "hi") c1Sessions) "a1"
      = some { createSession "a1" with tokenCount := 2, status := .streaming } ∧
    ({ createSession "a1" with tokenCount := 2, status := AgentStatus.streaming } : AgentSession)
      ≠ createSession "a1" := by
  decide

/-- C1 (amended): for every tracked session and every stream-delta event whose
runId matches no message with `streaming = true` in the target session,
processing the event creates no message and modifies no message, raises no
error, and leaves `messages` and `activeRunId` unchanged; however the session
`tokenCount` grows by the chunk length and the status is set to `streaming`. -/
theorem unmatched_delta_amended (now : Nat) (fid : String) (sessions : Sessions)
    (agentId : String) (key : Option String) (r c : String) (session : AgentSession)
    (hkey : resolveAgentId key = agentId)
    (hs : lookupS sessions agentId = some session)
    (hc : c ≠ "")
    (hnone : ∀ m ∈ session.messages, ¬(m.runId = some r ∧ m.streaming = true)) :
    lookupS (handleGatewayEvent now fid (deltaEvent r key c) sessions) agentId =
      some { session with tokenCount := session.tokenCount + c.length, status := .streaming } := by
  have hmap : (session.messages.map fun msg =>
      if msg.runId == some r && msg.streaming then { msg with text := msg.text ++ c } else msg)
      = session.messages := by
    have hcong : ∀ m ∈ session.messages,
        (if m.runId == some r && m.streaming then { m with text := m.text ++ c } else m) = id m := by
      intro m hm
      have hfalse : (m.runId == some r && m.streaming) = false := by
        cases hbr : m.runId == some r with
        | false => simp
        | true =>
            have heq : m.runId = some r := eq_of_beq hbr
            cases hstr : m.streaming with
            | false => simp [hstr]
            | true => exact absurd ⟨heq, hstr⟩ (hnone m hm)
      simp [hfalse]
    rw [List.map_congr_left hcong, List.map_id]
  rw [handle_delta_tracked now fid r c key sessions agentId session hkey hc hs, hmap,
    lookupS_upsertS_self]

/-- Witness for the amended C1 theorem at the concrete demo state. -/
theorem unmatched_delta_amended_witness :
    lookupS (handleGatewayEvent 0 "f1" (deltaEvent "r1" (some "agent:main:a1") "hi") c1Sessions) "a1"
      = some { createSession "a1" with tokenCount := 2, status := .streaming } :=
  unmatched_delta_amended 0 "f1" c1Sessions "a1" (some "agent:main:a1") "r1" "hi"
    (createSession "a1") (by decide) (by decide) (by decide)
    (by intro m hm; simp [createSession] at hm)

/-! ### Claim C2 — events with untracked session ids -/

/-- C2 (code bug): an agent event with sub-stream `tool_use` whose SessionKey
resolves to the untracked id "ghost" is not dropped: `setAgentStatus` spreads
the undefined session and inserts a fresh entry for "ghost" holding only a
status, contradicting both the stated invariant and the declared
`AgentSession` shape (every other handler guards the lookup; this one does
not). -/
theorem untracked_event_creates_entry :
    lookupS ([] : Sessions) "ghost" = none ∧
    lookupS (handleGatewayEvent 0 "f2"
        (.agent none (some "tool_use") none (some "agent:main:ghost")) ([] : Sessions)) "ghost"
      = some { undefinedSpreadSession with status := .tool_use } := by
  decide

/-! ### Claim C4 — history fetch loses to live traffic -/

/-- C4: the history-fetch completion callback commits only when the session
message list is still empty; once any live event has appended a message, the
history result is discarded and the messages stay exactly the live-derived
sequence. -/
theorem history_commit_only_when_empty (freshId : Nat → String) (now : Nat)
    (sessions : Sessions) (agentId : String) (raw : List RawHistoryMessage)
    (session : AgentSession)
    (hs : lookupS sessions agentId = some session)
    (hne : session.messages ≠ []) :
    commitHistory freshId now sessions agentId raw = sessions := by
  unfold commitHistory
  by_cases hlen : (parseHistoryMessages freshId now raw).length = 0
  · simp [hlen]
  · have hpos : session.messages.length > 0 := List.length_pos.mpr hne
    simp [hlen, hs, hpos]

/-- Demo state for C4: a session that already received one live message. -/
def c4Sessions : Sessions :=
  [("a4", { createSession "a4" with
      messages := [{ id := "m1", role := .user, text := "live", timestamp := 3,
                     streaming := false, runId := none, announcement := false,
                     compaction := none }] })]

/-- Witness for C4: a nonempty history fetch result arriving after a live
message leaves the state untouched. -/
theorem history_commit_only_when_empty_witness :
    commitHistory (fun _ => "h") 9 c4Sessions "a4"
      [{ role := some "assistant", content := .str "old answer", timestamp := some 1,
         openclawKind := none }] = c4Sessions :=
  history_commit_only_when_empty (fun _ => "h") 9 c4Sessions "a4"
    [{ role := some "assistant", content := .str "old answer", timestamp := some 1,
       openclawKind := none }]
    { createSession "a4" with
        messages := [{ id := "m1", role := .user, text := "live", timestamp := 3,
                       streaming := false, runId := none, announcement := false,
                       compaction := none }] }
    (by decide) (by decide)

/-! ### Claim C9 — failed startRun -/

/-- C9: when the underlying startRun request rejects, `sendMessage` leaves the
session with exactly the user message appended to the prior history, the
status set to `error`, and no streaming placeholder (the appended message is
the non-streaming user turn; `activeRunId` is untouched). -/
theorem sendMessage_startRun_failure (sessions : Sessions) (agentId text : String)
    (now : Nat) (uid pid : String) (session : AgentSession)
    (hs : lookupS sessions agentId = some session) :
    sendMessage (some true) sessions agentId text none now uid pid =
      upsertS sessions agentId
        { session with
            messages := session.messages ++
              [{ id := uid, role := .user, text := text, timestamp := now,
                 streaming := false, runId := none, announcement := false,
                 compaction := none }]
            status := .error } := by
  simp [sendMessage, hs, lookupS_upsertS_self, upsertS_upsertS]

/-- Witness for C9 at a concrete state. -/
theorem sendMessage_startRun_failure_witness :
    sendMessage (some true) [("a9", createSession "a9")] "a9" "hello" none 7 "u9" "p9" =
      upsertS [("a9", createSession "a9")] "a9"
        { createSession "a9" with
            messages := [{ id := "u9", role := .user, text := "hello", timestamp := 7,
                           streaming := false, runId := none, announcement := false,
                           compaction := none }]
            status := .error } :=
  sendMessage_startRun_failure [("a9", createSession "a9")] "a9" "hello" 7 "u9" "p9"
    (createSession "a9") (by decide)

/-! ### Claim C10 — sendMessage guards -/

/-- C10: a `sendMessage` call made while the gateway client is absent or not
connected, or whose target agent id has no tracked session, returns without
raising and without touching any session state. -/
theorem sendMessage_guards (client : Option Bool) (sessions : Sessions)
    (agentId text : String) (runResult : Option String) (now : Nat) (uid pid : String) :
    (client ≠ some true →
      sendMessage client sessions agentId text runResult now uid pid = sessions)
  ∧ (lookupS sessions agentId = none →
      sendMessage client sessions agentId text runResult now uid pid = sessions) := by
  constructor
  · intro h
    match client with
    | none => simp [sendMessage]
    | some false => simp [sendMessage]
    | some true => exact absurd rfl h
  · intro h
    match client with
    | none => simp [sendMessage]
    | some false => simp [sendMessage]
    | some true => simp [sendMessage, h]

/-- Witness for C10: both guards at concrete inputs (disconnected client,
untracked agent id). -/
theorem sendMessage_guards_witness :
    sendMessage none [("aw", createSession "aw")] "aw" "hi" none 0 "u" "p"
        = [("aw", createSession "aw")]
  ∧ sendMessage (some true) [("aw", createSession "aw")] "zz" "hi" none 0 "u" "p"
        = [("aw", createSession "aw")] :=
  ⟨(sendMessage_guards none [("aw", createSession "aw")] "aw" "hi" none 0 "u" "p").1
      (by decide),
   (sendMessage_guards (some true) [("aw", createSession "aw")] "zz" "hi" none 0 "u" "p").2
      (by decide)⟩

/-! ### Claim C3 — presence offline followed by a delta -/

/-- Demo placeholder message for C3. -/
def c3Msg : ChatMessage :=
  { id := "p3", role := .assistant, text := "He", timestamp := 0,
    streaming := true, runId := some "r3", announcement := false, compaction := none }

/-- Demo session for C3: streaming, with run r3 active. -/
def c3Session : AgentSession :=
  { agentId := "a3", status := .streaming, messages := [c3Msg],
    activeRunId := some "r3", tokenCount := 2, connected := true, usage := none }

/-- Demo state for C3: a streaming session with one streaming placeholder. -/
def c3Sessions : Sessions := [("a3", c3Session)]

/-- C3 counterexample: after a presence event marks the streaming agent "a3"
offline, the very next delta for the still-active run sets the session status
back to `streaming` (every assistant delta ends in `setAgentStatus(agentId,
"streaming")`), so the status does NOT remain `disconnected` until a
lifecycle-start arrives. -/
theorem presence_override_counterexample :
    (lookupS (handleGatewayEvent 0 "f3"
        (.presence (some [("a3", false)])) c3Sessions) "a3").map AgentSession.status
      = some .disconnected ∧
    (lookupS (handleGatewayEvent 1 "g3" (deltaEvent "r3" (some "agent:main:a3") "llo")
        (handleGatewayEvent 0 "f3" (.presence (some [("a3", false)])) c3Sessions)) "a3").map
          AgentSession.status
      = some .streaming ∧
    (some AgentStatus.streaming ≠ some AgentStatus.disconnected) := by
  decide

/-- C3 (amended): a presence event marking an agent offline while its session
is streaming forces the status to `disconnected`; a subsequent stream-delta
for the same still-active runId is still appended to the message text (no
data is lost), but that delta also moves the status to `streaming` — the
status does not stay `disconnected` until the next lifecycle-start. -/
theorem presence_offline_then_delta (now1 now2 : Nat) (fid1 fid2 : String)
    (sessions : Sessions) (agentId : String) (key : Option String) (r c : String)
    (session : AgentSession) (i : Nat) (msg : ChatMessage)
    (hkey : resolveAgentId key = agentId)
    (hs : lookupS sessions agentId = some session)
    (hstatus : session.status = .streaming)
    (hi : session.messages[i]? = some msg)
    (hr : msg.runId = some r) (hstr : msg.streaming = true) (hc : c ≠ "") :
    lookupS (handleGatewayEvent now1 fid1 (.presence (some [(agentId, false)])) sessions)
        agentId
      = some { session with connected := false, status := .disconnected } ∧
    ∃ session2,
      lookupS (handleGatewayEvent now2 fid2 (deltaEvent r key c)
          (handleGatewayEvent now1 fid1 (.presence (some [(agentId, false)])) sessions))
          agentId = some session2 ∧
      session2.messages[i]? = some { msg with text := msg.text ++ c } ∧
      session2.status = .streaming := by
  have h1 := handle_presence_single now1 fid1 sessions agentId false session hs
  have hlk1 : lookupS (handleGatewayEvent now1 fid1
      (.presence (some [(agentId, false)])) sessions) agentId
      = some { session with connected := false, status := .disconnected } := by
    rw [h1]
    simpa using lookupS_upsertS_self sessions agentId _
  refine ⟨hlk1, ?_⟩
  have h2 := handle_delta_tracked now2 fid2 r c key _ agentId
    { session with connected := false, status := AgentStatus.disconnected } hkey hc hlk1
  refine ⟨_, by rw [h2]; exact lookupS_upsertS_self _ agentId _, ?_, rfl⟩
  simp only [List.getElem?_map, hi, Option.map_some]
  simp [hr, hstr]

/-- Witness for the amended C3 theorem at the concrete demo state. -/
theorem presence_offline_then_delta_witness :
    lookupS (handleGatewayEvent 0 "f3" (.presence (some [("a3", false)])) c3Sessions) "a3"
      = some { c3Session with connected := false, status := .disconnected } ∧
    ∃ session2,
      lookupS (handleGatewayEvent 1 "g3" (deltaEvent "r3" (some "agent:main:a3") "llo")
          (handleGatewayEvent 0 "f3" (.presence (some [("a3", false)])) c3Sessions)) "a3"
        = some session2 ∧
      session2.messages[0]? = some { c3Msg with text := c3Msg.text ++ "llo" } ∧
      session2.status = .streaming :=
  presence_offline_then_delta 0 1 "f3" "g3" c3Sessions "a3" (some "agent:main:a3") "r3" "llo"
    c3Session 0 c3Msg
    (by decide) (by decide) rfl (by decide) rfl rfl (by decide)

/-! ### Claim C5 — lifecycle-end idempotence and sealing -/

/-- Sealing a message that is not streaming changes nothing. -/
theorem seal_noop (m : ChatMessage) (h : m.streaming = false) :
    ({ m with streaming := false } : ChatMessage) = m := by
  cases m
  simp_all

/-- Applying `finalizeMessage` twice is the same as once: it is idempotent on the full session state. -/
theorem finalizeMessage_idem (sessions : Sessions) (agentId : String)
    (runId : Option String) :
    finalizeMessage (finalizeMessage sessions agentId runId) agentId runId =
      finalizeMessage sessions agentId runId := by
  cases hs : lookupS sessions agentId with
  | none => simp [finalizeMessage, hs]
  | some session =>
      have hmap : ((session.messages.map fun msg =>
            if msg.runId == runId then { msg with streaming := false } else msg).map
            fun msg => if msg.runId == runId then { msg with streaming := false } else msg)
          = session.messages.map fun msg =>
            if msg.runId == runId then { msg with streaming := false } else msg := by
        rw [List.map_map]
        refine List.map_congr_left ?_
        intro m hm
        simp only [Function.comp_apply]
        by_cases h : (m.runId == runId) = true
        · simp [h]
        · simp [h]
      have h1 : finalizeMessage sessions agentId runId =
          upsertS sessions agentId
            { session with
                messages := session.messages.map fun msg =>
                  if msg.runId == runId then { msg with streaming := false } else msg
                activeRunId := none
                status := .idle } := by
        simp [finalizeMessage, hs]
      rw [h1]
      have h2 := lookupS_upsertS_self sessions agentId
        { session with
            messages := session.messages.map fun msg =>
              if msg.runId == runId then { msg with streaming := false } else msg
            activeRunId := none
            status := AgentStatus.idle }
      simp only [finalizeMessage, h2, upsertS_upsertS]
      rw [hmap]

/-- C5 (amended): applying lifecycle-end for the same runId twice leaves the
whole session state identical to applying it once; applying lifecycle-end for
an already-sealed or nonexistent runId leaves the message history unchanged,
but still clears `activeRunId` and resets the status to `idle` (so it is not
a no-op on the full session state). -/
theorem lifecycle_end_idem_and_sealed (now1 now2 : Nat) (fid1 fid2 : String)
    (r : String) (key : Option String) (sessions : Sessions) (agentId : String)
    (hkey : resolveAgentId key = agentId) :
    handleGatewayEvent now2 fid2 (endEvent r key)
        (handleGatewayEvent now1 fid1 (endEvent r key) sessions)
      = handleGatewayEvent now1 fid1 (endEvent r key) sessions
  ∧ ∀ session, lookupS sessions agentId = some session →
      (∀ m ∈ session.messages, m.runId = some r → m.streaming = false) →
      handleGatewayEvent now1 fid1 (endEvent r key) sessions =
        upsertS sessions agentId { session with activeRunId := none, status := .idle } := by
  constructor
  · rw [handle_end_eq, handle_end_eq, finalizeMessage_idem]
  · intro session hs hsealed
    have hmap : (session.messages.map fun msg =>
        if msg.runId == some r then { msg with streaming := false } else msg)
        = session.messages := by
      have hcong : ∀ m ∈ session.messages,
          (if m.runId == some r then { m with streaming := false } else m) = id m := by
        intro m hm
        by_cases h : (m.runId == some r) = true
        · have heq : m.runId = some r := eq_of_beq h
          simp [h, seal_noop m (hsealed m hm heq)]
        · simp [h]
      rw [List.map_congr_left hcong, List.map_id]
    have h1 : finalizeMessage sessions agentId (some r) =
        upsertS sessions agentId
          { session with
              messages := session.messages.map fun msg =>
                if msg.runId == some r then { msg with streaming := false } else msg
              activeRunId := none
              status := .idle } := by
      simp [finalizeMessage, hs]
    rw [handle_end_eq, hkey, h1, hmap]

/-- Demo state for C5: a streaming session with an active run r1 and an empty
message list, receiving lifecycle-end events for the nonexistent run r2. -/
def c5Sessions : Sessions :=
  [("a5", { agentId := "a5", status := .streaming, messages := [],
            activeRunId := some "r1", tokenCount := 0, connected := true, usage := none })]

/-- C5 counterexample: a lifecycle-end for the nonexistent runId r2 is NOT a
no-op on the session state — it clears `activeRunId` and resets the status of
the streaming session to `idle`. -/
theorem lifecycle_end_nonexistent_not_noop :
    lookupS (handleGatewayEvent 0 "f5" (endEvent "r2" (some "agent:main:a5")) c5Sessions) "a5"
      ≠ lookupS c5Sessions "a5" := by
  decide

/-- Witness for the amended C5 theorem at the concrete demo state: both the
twice-equals-once equation and the sealed/nonexistent characterization. -/
theorem lifecycle_end_idem_and_sealed_witness :
    handleGatewayEvent 1 "g5" (endEvent "r2" (some "agent:main:a5"))
        (handleGatewayEvent 0 "f5" (endEvent "r2" (some "agent:main:a5")) c5Sessions)
      = handleGatewayEvent 0 "f5" (endEvent "r2" (some "agent:main:a5")) c5Sessions
  ∧ handleGatewayEvent 0 "f5" (endEvent "r2" (some "agent:main:a5")) c5Sessions
      = upsertS c5Sessions "a5"
          { agentId := "a5", status := .idle, messages := [],
            activeRunId := none, tokenCount := 0, connected := true, usage := none } := by
  refine ⟨(lifecycle_end_idem_and_sealed 0 1 "f5" "g5" "r2" (some "agent:main:a5")
      c5Sessions "a5" (by decide)).1, ?_⟩
  have h2 := (lifecycle_end_idem_and_sealed 0 1 "f5" "g5" "r2" (some "agent:main:a5")
      c5Sessions "a5" (by decide)).2
    { agentId := "a5", status := .streaming, messages := [],
      activeRunId := some "r1", tokenCount := 0, connected := true, usage := none }
    (by decide) (by intro m hm; simp at hm)
  exact h2

/-! ### Claim C6 — delta ordering and concatenation -/

/-- Generalized fold invariant for streams of deltas: a tracked message that
is streaming with the matching runId accumulates every nonempty chunk in
order (empty chunks are dropped by the event-level truthiness guard, which
does not change the concatenation). -/
theorem delta_fold_aux (now : Nat) (fid : String) (agentId : String)
    (key : Option String) (r : String) (i : Nat)
    (hkey : resolveAgentId key = agentId) :
    ∀ (chunks : List String) (sessions : Sessions) (session : AgentSession)
      (msg : ChatMessage),
      lookupS sessions agentId = some session →
      session.messages[i]? = some msg →
      msg.runId = some r → msg.streaming = true →
      ∃ session2 msg2,
        lookupS (processAll now fid (chunks.map (deltaEvent r key)) sessions) agentId
            = some session2 ∧
        session2.messages[i]? = some msg2 ∧
        msg2.text = msg.text ++ concatList chunks ∧
        msg2.runId = some r ∧ msg2.streaming = true := by
  intro chunks
  induction chunks with
  | nil =>
      intro sessions session msg hs hi hr hstr
      exact ⟨session, msg, by simpa [processAll] using hs, hi, by simp [concatList], hr, hstr⟩
  | cons c rest ih =>
      intro sessions session msg hs hi hr hstr
      by_cases hc : c = ""
      · subst hc
        obtain ⟨s2, m2, h1, h2, h3, h4, h5⟩ := ih sessions session msg hs hi hr hstr
        refine ⟨s2, m2, ?_, h2, ?_, h4, h5⟩
        · rw [List.map_cons, processAll_cons, handle_delta_empty]
          exact h1
        · rw [h3]
          simp [concatList]
      · have hstep := handle_delta_tracked now fid r c key sessions agentId session hkey hc hs
        have hs1 : lookupS (handleGatewayEvent now fid (deltaEvent r key c) sessions) agentId
            = some { session with
                messages := session.messages.map fun msg =>
                  if msg.runId == some r && msg.streaming then
                    { msg with text := msg.text ++ c }
                  else msg
                tokenCount := session.tokenCount + c.length
                status := .streaming } := by
          rw [hstep]
          exact lookupS_upsertS_self sessions agentId _
        have hi1 : ({ session with
              messages := session.messages.map fun msg =>
                if msg.runId == some r && msg.streaming then
                  { msg with text := msg.text ++ c }
                else msg
              tokenCount := session.tokenCount + c.length
              status := AgentStatus.streaming } : AgentSession).messages[i]?
            = some { msg with text := msg.text ++ c } := by
          simp only [List.getElem?_map, hi, Option.map_some]
          simp [hr, hstr]
        obtain ⟨s2, m2, h1, h2, h3, h4, h5⟩ :=
          ih (handleGatewayEvent now fid (deltaEvent r key c) sessions) _
            { msg with text := msg.text ++ c } hs1 hi1 (by simp [hr]) (by simp [hstr])
        refine ⟨s2, m2, ?_, h2, ?_, h4, h5⟩
        · rw [List.map_cons, processAll_cons]
          exact h1
        · rw [h3]
          simp [concatList, String.append_assoc]

/-- C6: for a session containing a streaming placeholder message with the
matching runId (created with empty text), delivering any sequence of
stream-delta events with that runId in order leaves the message text equal to
the concatenation of the chunks in delivery order, regardless of how the text
is split into chunks. -/
theorem delta_concatenation (now : Nat) (fid : String) (agentId : String)
    (key : Option String) (r : String) (i : Nat) (chunks : List String)
    (sessions : Sessions) (session : AgentSession) (msg : ChatMessage)
    (hkey : resolveAgentId key = agentId)
    (hs : lookupS sessions agentId = some session)
    (hi : session.messages[i]? = some msg)
    (hr : msg.runId = some r) (hstr : msg.streaming = true) (ht : msg.text = "") :
    ∃ session2 msg2,
      lookupS (processAll now fid (chunks.map (deltaEvent r key)) sessions) agentId
          = some session2 ∧
      session2.messages[i]? = some msg2 ∧
      msg2.text = concatList chunks := by
  obtain ⟨s2, m2, h1, h2, h3, h4, h5⟩ :=
    delta_fold_aux now fid agentId key r i hkey chunks sessions session msg hs hi hr hstr
  exact ⟨s2, m2, h1, h2, by simpa [ht] using h3⟩

/-- Demo placeholder message for C6. -/
def c6Msg : ChatMessage :=
  { id := "p6", role := .assistant, text := "", timestamp := 0,
    streaming := true, runId := some "r6", announcement := false, compaction := none }

/-- Demo session for C6. -/
def c6Session : AgentSession :=
  { agentId := "a6", status := .streaming, messages := [c6Msg],
    activeRunId := some "r6", tokenCount := 0, connected := true, usage := none }

/-- Demo state for C6. -/
def c6Sessions : Sessions := [("a6", c6Session)]

/-- Witness for C6: the chunks "He" and "llo" accumulate to "Hello". -/
theorem delta_concatenation_witness :
    ∃ session2 msg2,
      lookupS (processAll 0 "f6"
          (["He", "llo"].map (deltaEvent "r6" (some "agent:main:a6"))) c6Sessions) "a6"
        = some session2 ∧
      session2.messages[0]? = some msg2 ∧
      msg2.text = concatList ["He", "llo"] :=
  delta_concatenation 0 "f6" "a6" (some "agent:main:a6") "r6" 0 ["He", "llo"]
    c6Sessions c6Session c6Msg (by decide) rfl rfl rfl rfl rfl

/-! ### Claim C7 — chat recency deduplication window -/

/-- A final-state chat event with assistant role, plain-string content and no
runId, the shape used by the recency-window property. -/
def finalChatEvent (t : String) (key : Option String) : GatewayEvent :=
  .chat (some "final") none key (some { role := some "assistant", content := .str t })

/-- The announcement message appended for a surviving chat turn without a
runId. -/
def annMsg (fid t : String) (now : Nat) : ChatMessage :=
  { id := fid, role := .announcement, text := t, timestamp := now,
    streaming := false, runId := none, announcement := true, compaction := none }

/-- A surviving final chat event is appended as an announcement. -/
theorem handle_chat_append (now : Nat) (fid : String) (key : Option String)
    (t : String) (sessions : Sessions) (agentId : String) (session : AgentSession)
    (hkey : resolveAgentId key = agentId)
    (hs : lookupS sessions agentId = some session)
    (hblank : isBlank t = false)
    (hhb : heartbeatSentinel t = false)
    (hdup : dedupRecent session.messages t now = false) :
    handleGatewayEvent now fid (finalChatEvent t key) sessions =
      upsertS sessions agentId
        { session with messages := session.messages ++ [annMsg fid t now] } := by
  simp [handleGatewayEvent, finalChatEvent, handleChatCase, hkey, hs, extractChatText,
    hblank, hhb, truthyOptStr, hdup, annMsg]

/-- A final chat event landing inside the recency window of an identical last
message is dropped. -/
theorem handle_chat_dedup_drop (now : Nat) (fid : String) (key : Option String)
    (t : String) (sessions : Sessions) (agentId : String) (session : AgentSession)
    (hkey : resolveAgentId key = agentId)
    (hs : lookupS sessions agentId = some session)
    (hblank : isBlank t = false)
    (hhb : heartbeatSentinel t = false)
    (hdup : dedupRecent session.messages t now = true) :
    handleGatewayEvent now fid (finalChatEvent t key) sessions = sessions := by
  simp [handleGatewayEvent, finalChatEvent, handleChatCase, hkey, hs, extractChatText,
    hblank, hhb, truthyOptStr, hdup]

/-- C7: two final chat events with identical extracted text for the same
session (assistant role, no runId, text that passes the whitelist filter,
and a prior history whose last message differs from the text) produce exactly
one appended announcement when the second arrives within the 5000 ms recency
window, and two appended announcements when it arrives at or after the window
boundary. -/
theorem chat_dedup_window (now1 now2 : Nat) (fid1 fid2 : String) (sessions : Sessions)
    (agentId : String) (key : Option String) (t : String) (session : AgentSession)
    (hkey : resolveAgentId key = agentId)
    (hs : lookupS sessions agentId = some session)
    (hblank : isBlank t = false)
    (hhb : heartbeatSentinel t = false)
    (hlast : ∀ m, session.messages.getLast? = some m → m.text ≠ t) :
    (now2 - now1 < 5000 →
      lookupS (handleGatewayEvent now2 fid2 (finalChatEvent t key)
          (handleGatewayEvent now1 fid1 (finalChatEvent t key) sessions)) agentId
        = some { session with messages := session.messages ++ [annMsg fid1 t now1] })
  ∧ (5000 ≤ now2 - now1 →
      lookupS (handleGatewayEvent now2 fid2 (finalChatEvent t key)
          (handleGatewayEvent now1 fid1 (finalChatEvent t key) sessions)) agentId
        = some { session with
            messages := session.messages ++ [annMsg fid1 t now1, annMsg fid2 t now2] }) := by
  have hd1 : dedupRecent session.messages t now1 = false := by
    cases hgl : session.messages.getLast? with
    | none => simp [dedupRecent, hgl]
    | some m =>
        have hne : (m.text == t) = false := beq_eq_false_iff_ne.mpr (hlast m hgl)
        simp [dedupRecent, hgl, hne]
  have h1 := handle_chat_append now1 fid1 key t sessions agentId session hkey hs
    hblank hhb hd1
  have hs1 : lookupS (handleGatewayEvent now1 fid1 (finalChatEvent t key) sessions) agentId
      = some { session with messages := session.messages ++ [annMsg fid1 t now1] } := by
    rw [h1]
    exact lookupS_upsertS_self sessions agentId _
  constructor
  · intro hlt
    have hd2 : dedupRecent (session.messages ++ [annMsg fid1 t now1]) t now2 = true := by
      simp [dedupRecent, List.getLast?_concat, annMsg, hlt]
    have h2 := handle_chat_dedup_drop now2 fid2 key t
      (handleGatewayEvent now1 fid1 (finalChatEvent t key) sessions) agentId
      { session with messages := session.messages ++ [annMsg fid1 t now1] }
      hkey hs1 hblank hhb hd2
    rw [h2, hs1]
  · intro hge
    have hd2 : dedupRecent (session.messages ++ [annMsg fid1 t now1]) t now2 = false := by
      simp [dedupRecent, List.getLast?_concat, annMsg, Nat.not_lt.mpr hge]
    have h2 := handle_chat_append now2 fid2 key t
      (handleGatewayEvent now1 fid1 (finalChatEvent t key) sessions) agentId
      { session with messages := session.messages ++ [annMsg fid1 t now1] }
      hkey hs1 hblank hhb hd2
    rw [h2, lookupS_upsertS_self]
    simp

/-- Demo state for C7: one tracked session with an empty message list. -/
def c7Sessions : Sessions := [("a7", createSession "a7")]

/-- Witness for C7: at times 100 and 4000 the duplicate inside the window is
dropped, one announcement remains. -/
theorem chat_dedup_window_witness :
    lookupS (handleGatewayEvent 4000 "g7" (finalChatEvent "done" (some "agent:main:a7"))
        (handleGatewayEvent 100 "f7" (finalChatEvent "done" (some "agent:main:a7"))
          c7Sessions)) "a7"
      = some { createSession "a7" with
          messages := (createSession "a7").messages ++ [annMsg "f7" "done" 100] } :=
  (chat_dedup_window 100 4000 "f7" "g7" c7Sessions "a7" (some "agent:main:a7") "done"
      (createSession "a7") (by decide) (by decide) (by decide) (by decide)
      (by intro m hm; simp [createSession] at hm)).1 (by decide)

/-! ### Claim C8 — chat event gating -/

/-- Full characterization of the chat case: either the state is unchanged, or
every filter of the whitelist passed, the role is assistant or system, and
exactly one announcement was appended to the tracked target session. -/
theorem handleChatCase_spec (now : Nat) (fid : String) (st runId key : Option String)
    (msgOpt : Option ChatPayloadMsg) (sessions : Sessions) :
    handleChatCase now fid st runId key msgOpt sessions = sessions ∨
    ∃ msg session,
      msgOpt = some msg ∧
      lookupS sessions (resolveAgentId key) = some session ∧
      st = some "final" ∧
      isBlank (extractChatText msg.content) = false ∧
      heartbeatSentinel (extractChatText msg.content) = false ∧
      (msg.role == some "tool" || msg.role == some "function") = false ∧
      (truthyOptStr runId && session.messages.any fun m => m.runId == runId) = false ∧
      dedupRecent session.messages (extractChatText msg.content) now = false ∧
      (msg.role = some "assistant" ∨ msg.role = some "system") ∧
      handleChatCase now fid st runId key msgOpt sessions =
        upsertS sessions (resolveAgentId key)
          { session with messages := session.messages ++
              [{ id := fid, role := .announcement, text := extractChatText msg.content,
                 timestamp := now, streaming := false, runId := runId,
                 announcement := true, compaction := none }] } := by
  cases hlk : lookupS sessions (resolveAgentId key) with
  | none => exact Or.inl (by simp [handleChatCase, hlk])
  | some session =>
      cases hb : st == some "final" with
      | false => exact Or.inl (by simp [handleChatCase, hlk, bne, hb])
      | true =>
          have hstEq : st = some "final" := eq_of_beq hb
          cases msgOpt with
          | none => exact Or.inl (by simp [handleChatCase, hlk, bne, hb])
          | some msg =>
              cases hblank : isBlank (extractChatText msg.content) with
              | true => exact Or.inl (by simp [handleChatCase, hlk, bne, hb, hblank])
              | false =>
                  cases hhb : heartbeatSentinel (extractChatText msg.content) with
                  | true =>
                      exact Or.inl (by simp [handleChatCase, hlk, bne, hb, hblank, hhb])
                  | false =>
                      cases hrole : (msg.role == some "tool" || msg.role == some "function") with
                      | true =>
                          exact Or.inl
                            (by simp [handleChatCase, hlk, bne, hb, hblank, hhb, hrole])
                      | false =>
                          cases htrack : (truthyOptStr runId
                              && session.messages.any fun m => m.runId == runId) with
                          | true =>
                              exact Or.inl (by
                                simp [handleChatCase, hlk, bne, hb, hblank, hhb, hrole, htrack])
                          | false =>
                              cases hdup : dedupRecent session.messages
                                  (extractChatText msg.content) now with
                              | true =>
                                  exact Or.inl (by
                                    simp [handleChatCase, hlk, bne, hb, hblank, hhb, hrole,
                                      htrack, hdup])
                              | false =>
                                  cases hras : (msg.role == some "assistant"
                                      || msg.role == some "system") with
                                  | false =>
                                      exact Or.inl (by
                                        simp [handleChatCase, hlk, bne, hb, hblank, hhb,
                                          hrole, htrack, hdup, hras])
                                  | true =>
                                      have hor2 : msg.role = some "assistant"
                                          ∨ msg.role = some "system" := by
                                        simpa using hras
                                      have happ2 : handleChatCase now fid st runId key
                                          (some msg) sessions =
                                          upsertS sessions (resolveAgentId key)
                                            { session with messages := session.messages ++
                                                [{ id := fid, role := .announcement,
                                                   text := extractChatText msg.content,
                                                   timestamp := now, streaming := false,
                                                   runId := runId, announcement := true,
                                                   compaction := none }] } := by
                                        simp [handleChatCase, hlk, bne, hb, hblank, hhb,
                                          hrole, htrack, hdup, hras]
                                      exact Or.inr ⟨msg, session, rfl, rfl, hstEq, hblank,
                                        hhb, hrole, htrack, hdup, hor2, happ2⟩

/-- C8 (amended): a server-pushed chat event mutates session state only when
its state field is "final", and even then it is dropped with no state change
and no error whenever the role is tool or function, the extracted text is
empty after trimming, the text matches the heartbeat sentinel pattern (the
chat path does not filter the NO_REPLY sentinel), or the runId is a nonempty
id that already has a tracked message in the session; a surviving turn is
appended with role announcement only when the originating role is assistant
or system. -/
theorem chat_final_gating (now : Nat) (fid : String) (st runId key : Option String)
    (msgOpt : Option ChatPayloadMsg) (sessions : Sessions) :
    (st ≠ some "final" →
      handleGatewayEvent now fid (.chat st runId key msgOpt) sessions = sessions)
  ∧ (∀ msg, msgOpt = some msg →
      (msg.role = some "tool" ∨ msg.role = some "function") →
      handleGatewayEvent now fid (.chat st runId key msgOpt) sessions = sessions)
  ∧ (∀ msg, msgOpt = some msg → isBlank (extractChatText msg.content) = true →
      handleGatewayEvent now fid (.chat st runId key msgOpt) sessions = sessions)
  ∧ (∀ msg, msgOpt = some msg → heartbeatSentinel (extractChatText msg.content) = true →
      handleGatewayEvent now fid (.chat st runId key msgOpt) sessions = sessions)
  ∧ (∀ session r, lookupS sessions (resolveAgentId key) = some session →
      runId = some r → r ≠ "" →
      (session.messages.any fun m => m.runId == some r) = true →
      handleGatewayEvent now fid (.chat st runId key msgOpt) sessions = sessions)
  ∧ (∀ msg, msgOpt = some msg → msg.role ≠ some "assistant" → msg.role ≠ some "system" →
      handleGatewayEvent now fid (.chat st runId key msgOpt) sessions = sessions)
  ∧ (handleGatewayEvent now fid (.chat st runId key msgOpt) sessions = sessions ∨
      ∃ msg session, msgOpt = some msg ∧
        (msg.role = some "assistant" ∨ msg.role = some "system") ∧
        lookupS sessions (resolveAgentId key) = some session ∧
        handleGatewayEvent now fid (.chat st runId key msgOpt) sessions =
          upsertS sessions (resolveAgentId key)
            { session with messages := session.messages ++
                [{ id := fid, role := .announcement, text := extractChatText msg.content,
                   timestamp := now, streaming := false, runId := runId,
                   announcement := true, compaction := none }] }) := by
  have hav : handleGatewayEvent now fid (.chat st runId key msgOpt) sessions
      = handleChatCase now fid st runId key msgOpt sessions := rfl
  rcases handleChatCase_spec now fid st runId key msgOpt sessions with hsame |
    ⟨m, sess, hm, hlk, hstEq, hblank, hhb, hrole, htrack, hdup, hor, happ⟩
  · rw [hav, hsame]
    refine ⟨fun _ => rfl, fun _ _ _ => rfl, fun _ _ _ => rfl, fun _ _ _ => rfl,
      fun _ _ _ _ _ _ => rfl, fun _ _ _ _ => rfl, Or.inl rfl⟩
  · refine ⟨?_, ?_, ?_, ?_, ?_, ?_, Or.inr ⟨m, sess, hm, hor, hlk, hav.trans happ⟩⟩
    · intro hne
      exact absurd hstEq hne
    · intro msg hmm hrr
      rw [hm] at hmm
      obtain rfl : m = msg := Option.some.inj hmm
      rcases hrr with h | h
      · rw [h] at hrole
        simp at hrole
      · rw [h] at hrole
        simp at hrole
    · intro msg hmm hbl
      rw [hm] at hmm
      obtain rfl : m = msg := Option.some.inj hmm
      rw [hbl] at hblank
      cases hblank
    · intro msg hmm hsen
      rw [hm] at hmm
      obtain rfl : m = msg := Option.some.inj hmm
      rw [hsen] at hhb
      cases hhb
    · intro session r hlk2 hrid hrne hany
      rw [hlk] at hlk2
      obtain rfl : sess = session := Option.some.inj hlk2
      rw [hrid] at htrack
      have htr : truthyOptStr (some r) = true := by simp [truthyOptStr, hrne]
      rw [htr, hany] at htrack
      cases htrack
    · intro msg hmm hna hns
      rw [hm] at hmm
      obtain rfl : m = msg := Option.some.inj hmm
      rcases hor with h | h
      · exact absurd h hna
      · exact absurd h hns

/-- Demo tracked message for C8 carrying the degenerate empty-string runId. -/
def c8TrackedMsg : ChatMessage :=
  { id := "t8", role := .assistant, text := "prior", timestamp := 0,
    streaming := false, runId := some "", announcement := false, compaction := none }

/-- Demo state for C8. -/
def c8Sessions : Sessions :=
  [("a8", createSession "a8"),
   ("b8", { createSession "b8" with messages := [c8TrackedMsg] })]

/-- C8 counterexample: the repository treats NO_REPLY as a sentinel (the
history parser filters it), yet a final chat event with text "NO_REPLY" is
appended by the chat handler instead of being dropped; likewise an event whose
runId is the empty string is appended even though that runId already has a
tracked message, because the JS truthiness guard skips the tracked-runId
dedup for empty-string ids. -/
theorem chat_noreply_not_dropped :
    historySentinel "NO_REPLY" = true ∧
    handleGatewayEvent 0 "f8"
        (.chat (some "final") none (some "agent:main:a8")
          (some { role := some "assistant", content := .str "NO_REPLY" })) c8Sessions
      ≠ c8Sessions ∧
    handleGatewayEvent 9999 "h8"
        (.chat (some "final") (some "") (some "agent:main:b8")
          (some { role := some "assistant", content := .str "fresh" })) c8Sessions
      ≠ c8Sessions := by
  decide

/-- Witness for the amended C8 theorem: a non-final chat event at a concrete
state is a no-op. -/
theorem chat_final_gating_witness :
    handleGatewayEvent 0 "w8" (.chat (some "delta") none (some "agent:main:a8") none)
        c8Sessions = c8Sessions :=
  (chat_final_gating 0 "w8" (some "delta") none (some "agent:main:a8") none c8Sessions).1
    (by decide)
